import Mathlib

/-!
Verification of the infinite-runner game of this repository.

The repository holds two near-duplicate implementations of the game:
the first (`pages/Game.jsx`, here `Runner` namespace) with a dt-based
physics loop, and the second (`Classics`, here `Classics1` namespace)
with a per-frame fixed-step loop.  Positions, velocities and times are
embedded as rationals; scores as integers (first implementation) or
naturals (second).  JavaScript `Math.random()` calls are embedded as
injected rational parameters in `[0, 1)`; `localStorage` as an explicit
`Option String` value threaded through the functions that touch it, with
a `writeOk` flag standing for whether a `setItem` call succeeds or
throws.
-/

namespace Runner

/-- Axis-aligned rectangle as used throughout the game code:
origin `(x, y)` plus `width`/`height`. -/
structure Rect where
  x : ℚ
  y : ℚ
  width : ℚ
  height : ℚ
deriving DecidableEq

/-- Embedding of `rectsCollide` from the first implementation:
`!(a.x + a.width < b.x || a.x > b.x + b.width || a.y + a.height < b.y || a.y > b.y + b.height)`. -/
def rectsCollide (a b : Rect) : Bool :=
  !(a.x + a.width < b.x || a.x > b.x + b.width ||
    a.y + a.height < b.y || a.y > b.y + b.height)

/-- Embedding of the inline collision condition of the second
implementation's loop:
`player.x < o.x + o.width && player.x + player.width > o.x && player.y < o.y + o.height && player.y + player.height > o.y`,
with `a` the player rectangle and `b` the obstacle rectangle. -/
def classicsCollision (a b : Rect) : Bool :=
  a.x < b.x + b.width && a.x + a.width > b.x &&
  a.y < b.y + b.height && a.y + a.height > b.y

/-- C1 (counterexample): two rectangles touching exactly on an edge
(`a.x + a.width = b.x`) make `rectsCollide` return `true`, whereas the
claim says boundary-touching rectangles return `false`. -/
theorem rectsCollide_touching_counterexample :
    rectsCollide ⟨0, 0, 10, 10⟩ ⟨10, 0, 10, 10⟩ = true := by
  simp [rectsCollide]

/-- C1 (amended): `rectsCollide` returns `true` iff the closed
rectangles intersect — positive overlap on both axes gives `true`, a
strict gap on either axis gives `false`, and boundary-touching gives
`true` (not `false`); the strict-interior behaviour the claim describes
is instead the one of the second implementation's inline check
`classicsCollision`, which returns `true` iff the overlap is strict on
both axes, so boundary-touching gives `false` there. -/
theorem collision_characterization (a b : Rect) :
    (rectsCollide a b = true ↔
      b.x ≤ a.x + a.width ∧ a.x ≤ b.x + b.width ∧
      b.y ≤ a.y + a.height ∧ a.y ≤ b.y + b.height) ∧
    (classicsCollision a b = true ↔
      a.x < b.x + b.width ∧ b.x < a.x + a.width ∧
      a.y < b.y + b.height ∧ b.y < a.y + a.height) := by
  constructor
  · simp only [rectsCollide, Bool.not_eq_true', Bool.or_eq_false_iff,
      decide_eq_false_iff_not, not_lt]
    tauto
  · simp only [classicsCollision, Bool.and_eq_true, decide_eq_true_eq, gt_iff_lt]
    tauto

/-! Game configuration constants of the first implementation
(the `config` object of `GamePage`). -/

/-- Gravity constant, px/s^2. -/
def gravity : ℚ := 2000

/-- Height of the ground band, px. -/
def groundHeight : ℚ := 96

/-- Player width. -/
def playerW : ℚ := 44

/-- Player height. -/
def playerH : ℚ := 44

/-- Player start x position. -/
def playerStartX : ℚ := 80

/-- Player start y offset. -/
def startYOffset : ℚ := 0

/-- Minimum horizontal gap for obstacle spawning. -/
def obstacleMinGap : ℚ := 360

/-- Maximum horizontal gap for obstacle spawning. -/
def obstacleMaxGap : ℚ := 700

/-- Starting scroll speed. -/
def obstacleSpeedStart : ℚ := 480

/-- Speed increase per second. -/
def obstacleAcceleration : ℚ := 20

/-- Spawn lead distance (`spawnEarlyTime` in the config object). -/
def spawnEarlyTime : ℚ := 1200

/-- Upward jump impulse set by `jump()` (`-820`). -/
def jumpImpulse : ℚ := -820

/-- Player record of the first implementation's game state. -/
structure Player where
  x : ℚ
  y : ℚ
  vy : ℚ
  width : ℚ
  height : ℚ
  grounded : Bool
deriving DecidableEq

/-- Obstacle record pushed by `spawnObstacle`. -/
structure Obstacle where
  x : ℚ
  y : ℚ
  width : ℚ
  height : ℚ
deriving DecidableEq

/-- Session state held in `gameStateRef` (the single mutable root of one
game instance). -/
structure GameState where
  player : Player
  obstacles : List Obstacle
  lastSpawnX : ℚ
  speed : ℚ
  score : ℤ
  running : Bool
  groundOffset : ℚ
deriving DecidableEq

/-- Embedding of `resetGameState()`. -/
def resetGameState : GameState where
  player := { x := playerStartX, y := 0, vy := 0, width := playerW,
              height := playerH, grounded := false }
  obstacles := []
  lastSpawnX := 0
  speed := obstacleSpeedStart
  score := 0
  running := true
  groundOffset := 0

/-- Embedding of `jump()`: no-op when the session is not running or the
player is airborne; otherwise sets the upward impulse and clears
`grounded`. -/
def jump (s : GameState) : GameState :=
  if !s.running then s
  else if s.player.grounded then
    { s with player := { s.player with vy := jumpImpulse, grounded := false } }
  else s

/-- Component state of the page that lives outside the session state:
the React mirrors (`score`, `running`, `highScore`, `paused`), the frame
timer, and the `localStorage` slot at key `"classic-highscore"`. -/
structure World where
  session : GameState
  uiScore : ℤ
  uiRunning : Bool
  uiHigh : ℤ
  paused : Bool
  lastTime : ℚ
  stored : Option String
deriving DecidableEq

/-- Embedding of `restart()`: replaces the session with
`resetGameState()`, zeroes the React score, sets running, resets the
frame timer. -/
def restart (w : World) : World :=
  { w with session := resetGameState, uiScore := 0, uiRunning := true,
           lastTime := 0 }

/-- Steps 1 and 2 of the physics update (gravity integration and ground
clamping), from the body of `loop()`:
`p.vy += config.gravity * dt; p.y += p.vy * dt;`
then `if (p.y >= groundY) { p.y = groundY; p.vy = 0; p.grounded = true }`. -/
def physicsStep (dt groundY : ℚ) (p : Player) : Player :=
  let vy := p.vy + gravity * dt
  let y := p.y + vy * dt
  if y ≥ groundY then { p with y := groundY, vy := 0, grounded := true }
  else { p with y := y, vy := vy }

/-- Step 3: `state.obstacles.forEach((o) => (o.x -= state.speed * dt))`. -/
def moveObstacles (dt : ℚ) (s : GameState) : GameState :=
  { s with obstacles := s.obstacles.map fun o => { o with x := o.x - s.speed * dt } }

/-- Step 4: `state.speed += config.obstacleAcceleration * dt`. -/
def accelerate (dt : ℚ) (s : GameState) : GameState :=
  { s with speed := s.speed + obstacleAcceleration * dt }

/-- Step 5: `state.obstacles = state.obstacles.filter((o) => o.x + o.width > -100)`. -/
def dropOffscreen (s : GameState) : GameState :=
  { s with obstacles := s.obstacles.filter fun o => decide (o.x + o.width > -100) }

/-- Embedding of `spawnObstacle(canvasW)` with the three `Math.random()`
draws injected as `rGap`, `rW`, `rH`.  The source also binds
`lastX = state.lastSpawnX || canvasW`, which is dead (never read); the
obstacle's `y` is `canvasW * 0 + 0 = 0`. -/
def spawnObstacle (canvasW rGap rW rH : ℚ) (s : GameState) : GameState :=
  let gap := obstacleMinGap + rGap * (obstacleMaxGap - obstacleMinGap)
  let x := canvasW + gap
  let h := 36 + rH * 64
  let obstacle : Obstacle := { x := x, y := 0, width := 28 + rW * 48, height := h }
  { s with obstacles := s.obstacles ++ [obstacle], lastSpawnX := x }

/-- Spawn trigger of step 6:
`state.obstacles.length === 0 || lastX < canvas.width - config.spawnEarlyTime`
where `lastX` is the last obstacle's x (or `-Infinity` when there is
none, in which case the length test already fires). -/
def spawnTrigger (canvasW : ℚ) (obstacles : List Obstacle) : Bool :=
  match obstacles.getLast? with
  | none => true
  | some o => decide (o.x < canvasW - spawnEarlyTime)

/-- Step 6: spawn a new obstacle when the trigger condition holds. -/
def maybeSpawn (canvasW rGap rW rH : ℚ) (s : GameState) : GameState :=
  if spawnTrigger canvasW s.obstacles then spawnObstacle canvasW rGap rW rH s else s

/-- Step 7: `state.score += Math.floor(state.speed * dt * 0.05)`. -/
def accrueScore (dt : ℚ) (s : GameState) : GameState :=
  { s with score := s.score + ⌊s.speed * dt * (0.05 : ℚ)⌋ }

/-- Truncation toward zero, the rounding JavaScript's `%` applies to the
quotient. -/
def jsTrunc (a : ℚ) : ℤ :=
  if 0 ≤ a then ⌊a⌋ else ⌈a⌉

/-- JavaScript remainder `a % b` on finite numbers: the sign follows the
dividend. -/
def jsMod (a b : ℚ) : ℚ :=
  a - b * jsTrunc (a / b)

/-- Step 8: `state.groundOffset = (state.groundOffset + state.speed * dt) % 60`. -/
def advanceParallax (dt : ℚ) (s : GameState) : GameState :=
  { s with groundOffset := jsMod (s.groundOffset + s.speed * dt) 60 }

/-- Player rectangle built by the collision loop:
`{ x: p.x, y: p.y, width: p.width, height: p.height }`. -/
def playerRect (p : Player) : Rect :=
  { x := p.x, y := p.y, width := p.width, height := p.height }

/-- Obstacle rectangle built by the collision loop, with ground-relative
y: `canvas.height / dpr - config.groundHeight - o.height` (`vh` is the
logical viewport height). -/
def obstacleRect (vh : ℚ) (o : Obstacle) : Rect :=
  { x := o.x, y := vh - groundHeight - o.height, width := o.width, height := o.height }

/-- Inner loop of step 9 over the obstacle list, threading the values
the loop body can change: the session's `running` flag, the React
`highScore` state, and the stored value.  On a collision the body sets
`running = false` and, when `state.score > highScore` (with `highScore`
the value captured at the start of the frame, `hs0`), tries
`localStorage.setItem('classic-highscore', String(state.score))` — a
failing write (`writeOk = false`) is swallowed by the `try`/`catch` —
and then sets the React high score to the session score. -/
def evalLoop (vh : ℚ) (writeOk : Bool) (score : ℤ) (pRect : Rect) (hs0 : ℤ) :
    List Obstacle → Bool × ℤ × Option String → Bool × ℤ × Option String
  | [], acc => acc
  | o :: rest, (running, hsMem, sto) =>
      if rectsCollide pRect (obstacleRect vh o) then
        if score > hs0 then
          evalLoop vh writeOk score pRect hs0 rest
            (false, score, if writeOk then some (toString score) else sto)
        else
          evalLoop vh writeOk score pRect hs0 rest (false, hsMem, sto)
      else
        evalLoop vh writeOk score pRect hs0 rest (running, hsMem, sto)

/-- Step 9, the collision/outcome evaluator: runs `evalLoop` over the
session's obstacles starting from the current running flag, React high
score and stored value. -/
def evalOutcome (vh : ℚ) (writeOk : Bool) (s : GameState) (hs0 : ℤ)
    (sto : Option String) : GameState × ℤ × Option String :=
  let r := evalLoop vh writeOk s.score (playerRect s.player) hs0 s.obstacles
    (s.running, hs0, sto)
  ({ s with running := r.1 }, r.2.1, r.2.2)

/-- One full physics update (steps 1-9 of the update branch of
`loop()`), in source order: gravity and ground clamp, obstacle movement,
difficulty ramp, off-screen removal, spawn, score accrual, parallax,
collision/outcome.  Returns the new session state, React high score and
stored value. -/
def updatePhysics (dt groundY canvasW vh rGap rW rH : ℚ) (writeOk : Bool)
    (s : GameState) (hs0 : ℤ) (sto : Option String) :
    GameState × ℤ × Option String :=
  let s1 := { s with player := physicsStep dt groundY s.player }
  let s2 := moveObstacles dt s1
  let s3 := accelerate dt s2
  let s4 := dropOffscreen s3
  let s5 := maybeSpawn canvasW rGap rW rH s4
  let s6 := accrueScore dt s5
  let s7 := advanceParallax dt s6
  evalOutcome vh writeOk s7 hs0 sto

/-- The guarded update of a frame: the nine steps run only under
`if (!paused && state.running)`; otherwise the session state, React high
score and stored value are untouched. -/
def tick (paused : Bool) (dt groundY canvasW vh rGap rW rH : ℚ) (writeOk : Bool)
    (s : GameState) (hs0 : ℤ) (sto : Option String) :
    GameState × ℤ × Option String :=
  if !paused && s.running then
    updatePhysics dt groundY canvasW vh rGap rW rH writeOk s hs0 sto
  else (s, hs0, sto)

/-- What the renderer paints on one frame, read off the draw section of
`loop()`: the player rectangle position (line `p.y === 0 ?
(vh - groundHeight - p.height) : p.y` for the drawn y), the obstacle
rectangles, the score and high-score texts, the parallax offset and
whether the game-over overlay is shown. -/
structure Frame where
  playerX : ℚ
  playerDrawY : ℚ
  obstacleDraws : List Rect
  scoreText : ℤ
  highText : ℤ
  groundOffset : ℚ
  gameOverOverlay : Bool
deriving DecidableEq

/-- Embedding of the draw section of `loop()`: a pure read of the
session state (and the React `score`/`highScore` mirrors) producing the
frame to paint. -/
def render (vh : ℚ) (uiScore uiHigh : ℤ) (s : GameState) : Frame where
  playerX := s.player.x
  playerDrawY := if s.player.y = 0 then vh - groundHeight - s.player.height
                 else s.player.y
  obstacleDraws := s.obstacles.map fun o =>
    { x := o.x, y := vh - groundHeight - o.height,
      width := o.width, height := o.height }
  scoreText := uiScore
  highText := uiHigh
  groundOffset := s.groundOffset
  gameOverOverlay := !s.running

/-- One whole frame callback: the guarded physics update followed by the
renderer, which reads the session state the update produced but paints
the `score`/`highScore` texts from the React values captured by the
frame's closure (`uiScore`, `hs0`). -/
def frameTick (paused : Bool) (dt groundY canvasW vh rGap rW rH : ℚ)
    (writeOk : Bool) (s : GameState) (hs0 : ℤ) (sto : Option String)
    (uiScore : ℤ) : (GameState × ℤ × Option String) × Frame :=
  let r := tick paused dt groundY canvasW vh rGap rW rH writeOk s hs0 sto
  (r, render vh uiScore hs0 r.1)

/-- Whether any obstacle of `l` collides with the player rectangle, the
condition the collision loop of step 9 tests obstacle by obstacle. -/
def hitsAny (vh : ℚ) (pRect : Rect) (l : List Obstacle) : Bool :=
  l.any fun o => rectsCollide pRect (obstacleRect vh o)

/-- Per-frame input of one physics step: the clamped elapsed time, the
three random draws consumed by a possible spawn, and whether a high
score write would succeed on that frame. -/
structure TickInput where
  dt : ℚ
  rGap : ℚ
  rW : ℚ
  rH : ℚ
  writeOk : Bool

/-- Iterated physics update steps over a sequence of frame inputs. -/
def runSteps (groundY canvasW vh : ℚ) :
    List TickInput → GameState × ℤ × Option String → GameState × ℤ × Option String
  | [], acc => acc
  | i :: rest, acc =>
      runSteps groundY canvasW vh rest
        (updatePhysics i.dt groundY canvasW vh i.rGap i.rW i.rH i.writeOk
          acc.1 acc.2.1 acc.2.2)

/-- Digit-run value: `some` of the decimal value when `cs` is one or
more decimal digits, `none` otherwise. -/
def parseNatDigits (cs : List Char) : Option ℕ :=
  if cs = [] then none
  else
    cs.foldl
      (fun acc c =>
        acc.bind fun n => if c.isDigit then some (n * 10 + (c.toNat - 48)) else none)
      (some 0)

/-- Model of the JavaScript `Number(s)` string coercion on the domain
this program exercises: the empty string coerces to `0`, an optionally
minus-signed run of decimal digits coerces to that integer (the only
shape the game ever stores, `String(state.score)` with integer score),
and every other string coerces to `NaN`, represented here as `none`. -/
def jsNumber (str : String) : Option ℤ :=
  match str.toList with
  | [] => some 0
  | '-' :: rest => (parseNatDigits rest).map fun n => -(n : ℤ)
  | cs => (parseNatDigits cs).map fun n => (n : ℤ)

/-- Key under which the high score is persisted. -/
def highScoreKey : String := "classic-highscore"

/-- Embedding of the startup read
`Number(localStorage.getItem('classic-highscore') || 0)`: a missing
value (`null`) and the empty string are falsy, so `Number` is applied to
`0`; any other stored string goes through the `Number` coercion. -/
def readHighScore (store : String → Option String) : Option ℤ :=
  match store highScoreKey with
  | none => some 0
  | some s => if s = "" then some 0 else jsNumber s

end Runner

namespace Classics1

/-- Player record of the second implementation
(`{ x, y, width, height, dy, gravity }`). -/
structure Player1 where
  x : ℚ
  y : ℚ
  width : ℚ
  height : ℚ
  dy : ℚ
  gravity : ℚ
deriving DecidableEq

/-- State the second implementation's `loop` closes over: player,
obstacle array, speed, frame counter, running flag, React score and the
`isJumping` mirror. -/
structure ClassicsState where
  player : Player1
  obstacles : List Runner.Rect
  gameSpeed : ℚ
  frame : ℕ
  running : Bool
  score : ℕ
  isJumping : Bool
deriving DecidableEq

/-- Obstacle after this frame's move of the second implementation's
loop: `o.x -= gameSpeed`. -/
def moved (gameSpeed : ℚ) (o : Runner.Rect) : Runner.Rect :=
  { o with x := o.x - gameSpeed }

/-- Player rectangle of the second implementation, as read by its inline
collision check. -/
def playerRect1 (p : Player1) : Runner.Rect :=
  { x := p.x, y := p.y, width := p.width, height := p.height }

/-- Running flag after the inline collision check of one iteration:
cleared when the moved obstacle strictly overlaps the player. -/
def runningAfter (p : Player1) (running : Bool) (o : Runner.Rect) : Bool :=
  if Runner.classicsCollision (playerRect1 p) o then false else running

/-- Embedding of the `obstacles.forEach` pass of the second
implementation's loop, with JavaScript iteration semantics: the visiting
index `i` advances every iteration even when `splice(i, 1)` removes the
current element, so the element shifted into slot `i` is skipped for the
rest of this frame.  Each visited obstacle is moved left by `gameSpeed`,
the strict AABB check against the player may clear `running`, and an
obstacle whose right edge has passed `x = 0` is removed with the score
incremented by exactly 1.  The removed (post-move) obstacles are
returned alongside the surviving list, the running flag and the score. -/
def runnerPass (gameSpeed : ℚ) (p : Player1) (l : List Runner.Rect) (i : ℕ)
    (running : Bool) (score : ℕ) (removed : List Runner.Rect) :
    List Runner.Rect × Bool × ℕ × List Runner.Rect :=
  if h : i < l.length then
    if (moved gameSpeed (l.get ⟨i, h⟩)).x + (moved gameSpeed (l.get ⟨i, h⟩)).width < 0 then
      runnerPass gameSpeed p
        ((l.set i (moved gameSpeed (l.get ⟨i, h⟩))).eraseIdx i) (i + 1)
        (runningAfter p running (moved gameSpeed (l.get ⟨i, h⟩))) (score + 1)
        (removed ++ [moved gameSpeed (l.get ⟨i, h⟩)])
    else
      runnerPass gameSpeed p (l.set i (moved gameSpeed (l.get ⟨i, h⟩))) (i + 1)
        (runningAfter p running (moved gameSpeed (l.get ⟨i, h⟩))) score removed
  else (l, running, score, removed)
termination_by l.length - i
decreasing_by
  · simp only [List.length_eraseIdx, List.length_set]
    split <;> omega
  · simp only [List.length_set]
    omega

/-- Player integration of the second implementation's loop:
`player.y += player.dy; player.dy += player.gravity;` then the clamp
`if (player.y > height - 80) { player.y = height - 80; player.dy = 0 }`. -/
def stepPlayer (height : ℚ) (p : Player1) : Player1 :=
  if p.y + p.dy > height - 80 then
    { p with y := height - 80, dy := 0 }
  else
    { p with y := p.y + p.dy, dy := p.dy + p.gravity }

/-- The `isJumping` React mirror after the clamp: cleared when the
player landed this frame. -/
def stepJumping (height : ℚ) (p : Player1) (isJumping : Bool) : Bool :=
  if p.y + p.dy > height - 80 then false else isJumping

/-- Obstacle list after the every-100th-frame spawn of the second
implementation: an obstacle at `x = width`, `y = height - 50`, random
width `40 + r * 20`, height 40, is appended when `frame % 100 === 0`. -/
def spawned (width height rW : ℚ) (st : ClassicsState) : List Runner.Rect :=
  if st.frame % 100 = 0 then
    st.obstacles ++
      [{ x := width, y := height - 50, width := 40 + rW * 20, height := 40 }]
  else st.obstacles

/-- Embedding of one invocation of the second implementation's `loop`:
return immediately when not running; otherwise integrate the player,
spawn on every 100th frame, run the obstacle pass (which moves
obstacles, may clear `running` on a strict overlap, and removes
off-screen obstacles incrementing the score once per removal through
`setScore((s) => s + 1)`), and advance the frame counter. -/
def loopStep (width height rW : ℚ) (st : ClassicsState) : ClassicsState :=
  if !st.running then st
  else
    { player := stepPlayer height st.player,
      obstacles := (runnerPass st.gameSpeed (stepPlayer height st.player)
        (spawned width height rW st) 0 true 0 []).1,
      gameSpeed := st.gameSpeed,
      frame := st.frame + 1,
      running := (runnerPass st.gameSpeed (stepPlayer height st.player)
        (spawned width height rW st) 0 true 0 []).2.1,
      score := st.score + (runnerPass st.gameSpeed (stepPlayer height st.player)
        (spawned width height rW st) 0 true 0 []).2.2.1,
      isJumping := stepJumping height st.player st.isJumping }

end Classics1

namespace Runner

lemma evalLoop_eq (vh : ℚ) (wOk : Bool) (score : ℤ) (pRect : Rect) (hs0 : ℤ)
    (l : List Obstacle) (running : Bool) (hsMem : ℤ) (sto : Option String) :
    evalLoop vh wOk score pRect hs0 l (running, hsMem, sto) =
      if hitsAny vh pRect l then
        (false, if score > hs0 then score else hsMem,
         if score > hs0 ∧ wOk = true then some (toString score) else sto)
      else (running, hsMem, sto) := by
  induction l generalizing running hsMem sto with
  | nil => simp [evalLoop, hitsAny]
  | cons o rest ih =>
    by_cases hc : rectsCollide pRect (obstacleRect vh o) = true
    · by_cases hgt : score > hs0
      · simp only [evalLoop, hc, if_true, hgt, ih, hitsAny, List.any_cons,
          Bool.true_or]
        by_cases hw : wOk = true <;> split_ifs <;> simp_all [hitsAny]
      · simp only [evalLoop, hc, if_true, hgt, if_false, ih, hitsAny,
          List.any_cons, Bool.true_or]
        split_ifs <;> simp_all [hitsAny]
    · simp [evalLoop, hc, ih, hitsAny, List.any_cons]

lemma maybeSpawn_player (canvasW rGap rW rH : ℚ) (s : GameState) :
    (maybeSpawn canvasW rGap rW rH s).player = s.player := by
  unfold maybeSpawn spawnObstacle; split <;> rfl

lemma maybeSpawn_speed (canvasW rGap rW rH : ℚ) (s : GameState) :
    (maybeSpawn canvasW rGap rW rH s).speed = s.speed := by
  unfold maybeSpawn spawnObstacle; split <;> rfl

lemma maybeSpawn_score (canvasW rGap rW rH : ℚ) (s : GameState) :
    (maybeSpawn canvasW rGap rW rH s).score = s.score := by
  unfold maybeSpawn spawnObstacle; split <;> rfl

lemma updatePhysics_player (dt groundY canvasW vh rGap rW rH : ℚ)
    (writeOk : Bool) (s : GameState) (hs0 : ℤ) (sto : Option String) :
    (updatePhysics dt groundY canvasW vh rGap rW rH writeOk s hs0 sto).1.player =
      physicsStep dt groundY s.player := by
  simp [updatePhysics, moveObstacles, accelerate, dropOffscreen, maybeSpawn_player,
    accrueScore, advanceParallax, evalOutcome]

lemma updatePhysics_speed (dt groundY canvasW vh rGap rW rH : ℚ)
    (writeOk : Bool) (s : GameState) (hs0 : ℤ) (sto : Option String) :
    (updatePhysics dt groundY canvasW vh rGap rW rH writeOk s hs0 sto).1.speed =
      s.speed + obstacleAcceleration * dt := by
  simp [updatePhysics, moveObstacles, accelerate, dropOffscreen, maybeSpawn_speed,
    accrueScore, advanceParallax, evalOutcome]

lemma updatePhysics_score (dt groundY canvasW vh rGap rW rH : ℚ)
    (writeOk : Bool) (s : GameState) (hs0 : ℤ) (sto : Option String) :
    (updatePhysics dt groundY canvasW vh rGap rW rH writeOk s hs0 sto).1.score =
      s.score + ⌊(s.speed + obstacleAcceleration * dt) * dt * (0.05 : ℚ)⌋ := by
  simp [updatePhysics, moveObstacles, accelerate, dropOffscreen, maybeSpawn_score,
    maybeSpawn_speed, accrueScore, advanceParallax, evalOutcome]

/-- C2: for every session state and every elapsed time `dt ≥ 0` clamped
to the 40ms maximum (`dt ≤ 1/25` s), after one physics update step the
player's vertical position never exceeds the ground line; and if the
gravity integration carries y to or past the ground line, y is snapped
to the ground line, the vertical velocity is zeroed and `grounded` is
set. -/
theorem player_never_below_ground (dt groundY canvasW vh rGap rW rH : ℚ)
    (writeOk : Bool) (s : GameState) (hs0 : ℤ) (sto : Option String)
    (hdt0 : 0 ≤ dt) (hdt1 : dt ≤ 1 / 25) :
    (updatePhysics dt groundY canvasW vh rGap rW rH writeOk s hs0 sto).1.player.y ≤ groundY ∧
    (groundY ≤ s.player.y + (s.player.vy + gravity * dt) * dt →
      (updatePhysics dt groundY canvasW vh rGap rW rH writeOk s hs0 sto).1.player =
        { s.player with y := groundY, vy := 0, grounded := true }) := by
  rw [updatePhysics_player]
  unfold physicsStep
  dsimp only
  split_ifs with hy
  · exact ⟨le_refl _, fun _ => rfl⟩
  · push_neg at hy
    exact ⟨le_of_lt hy, fun hcontra => absurd hcontra (not_le.mpr hy)⟩

/-- Witness for C2 at a concrete input. -/
theorem player_never_below_ground_witness :
    0 ≤ (1 / 100 : ℚ) ∧ (1 / 100 : ℚ) ≤ 1 / 25 ∧
    (updatePhysics (1 / 100) 280 800 420 0 0 0 true resetGameState 0 none).1.player.y ≤ 280 :=
  ⟨by norm_num, by norm_num,
   (player_never_below_ground (1 / 100) 280 800 420 0 0 0 true resetGameState 0 none
      (by norm_num) (by norm_num)).1⟩

/-- C4: when some obstacle overlaps the player, the collision/outcome
evaluator marks the session not-running; the stored high score is
overwritten with the session's score iff the score strictly exceeds the
captured high score and the write succeeds; a failing write is swallowed
(the stored value is untouched) while the in-memory (React) high score
still updates to the session's score. -/
theorem gameover_and_highscore (vh : ℚ) (writeOk : Bool) (s : GameState)
    (hs0 : ℤ) (sto : Option String)
    (h : hitsAny vh (playerRect s.player) s.obstacles = true) :
    (evalOutcome vh writeOk s hs0 sto).1 = { s with running := false } ∧
    (hs0 < s.score →
      (evalOutcome vh writeOk s hs0 sto).2.1 = s.score ∧
      (writeOk = true →
        (evalOutcome vh writeOk s hs0 sto).2.2 = some (toString s.score)) ∧
      (writeOk = false → (evalOutcome vh writeOk s hs0 sto).2.2 = sto)) ∧
    (s.score ≤ hs0 →
      (evalOutcome vh writeOk s hs0 sto).2.1 = hs0 ∧
      (evalOutcome vh writeOk s hs0 sto).2.2 = sto) := by
  unfold evalOutcome
  rw [evalLoop_eq, if_pos h]
  refine ⟨rfl, fun hgt => ?_, fun hle => ?_⟩
  · refine ⟨by simp [hgt], fun hw => ?_, fun hw => ?_⟩ <;> simp [hgt, hw]
  · have : ¬ hs0 < s.score := not_lt.mpr hle
    exact ⟨by simp [this], by simp [this]⟩

/-- Witness for C4 at a concrete input: player at the ground overlapping
one obstacle, session score 10 against high score 3, with a failing
write. -/
theorem gameover_and_highscore_witness :
    hitsAny 420
      (playerRect { x := 80, y := 280, vy := 0, width := 44, height := 44, grounded := true })
      [{ x := 100, y := 0, width := 28, height := 44 }] = true ∧
    (evalOutcome 420 false
      { player := { x := 80, y := 280, vy := 0, width := 44, height := 44, grounded := true },
        obstacles := [{ x := 100, y := 0, width := 28, height := 44 }],
        lastSpawnX := 0, speed := 480, score := 10, running := true,
        groundOffset := 0 } 3 none).2.1 = 10 := by
  have h : hitsAny 420
      (playerRect { x := 80, y := 280, vy := 0, width := 44, height := 44, grounded := true })
      [{ x := 100, y := 0, width := 28, height := 44 }] = true := by
    simp only [hitsAny, playerRect, obstacleRect, rectsCollide, groundHeight,
      List.any_cons, List.any_nil]
    norm_num
  exact ⟨h,
    ((gameover_and_highscore 420 false
      { player := { x := 80, y := 280, vy := 0, width := 44, height := 44, grounded := true },
        obstacles := [{ x := 100, y := 0, width := 28, height := 44 }],
        lastSpawnX := 0, speed := 480, score := 10, running := true,
        groundOffset := 0 } 3 none h).2.1 (by norm_num)).1⟩

/-- C6: on a frame taken while paused or after game-over, the guarded
update leaves the session state, the React high score and the stored
value all unchanged, while the renderer still runs on that frame — and,
being a pure function of the state, does not mutate it. -/
theorem paused_or_gameover_frame (paused : Bool)
    (dt groundY canvasW vh rGap rW rH : ℚ) (writeOk : Bool) (s : GameState)
    (hs0 : ℤ) (sto : Option String) (uiScore : ℤ)
    (h : paused = true ∨ s.running = false) :
    frameTick paused dt groundY canvasW vh rGap rW rH writeOk s hs0 sto uiScore =
      ((s, hs0, sto), render vh uiScore hs0 s) := by
  have hcond : (!paused && s.running) = false := by
    rcases h with h | h <;> simp [h]
  simp [frameTick, tick, hcond]

/-- Witness for C6: a paused frame at a concrete input. -/
theorem paused_or_gameover_frame_witness :
    (true = true ∨ resetGameState.running = false) ∧
    frameTick true (1 / 100) 280 800 420 0 0 0 true resetGameState 0 none 0 =
      ((resetGameState, 0, none), render 420 0 0 resetGameState) :=
  ⟨Or.inl rfl,
   paused_or_gameover_frame true (1 / 100) 280 800 420 0 0 0 true
     resetGameState 0 none 0 (Or.inl rfl)⟩

/-- C7: the jump action taken with the session running and the player
grounded sets the vertical velocity to the configured upward impulse and
clears `grounded`; with the session not running, or with the player
airborne, it is a silent no-op leaving the state unchanged. -/
theorem jump_spec (s : GameState) :
    (s.running = true ∧ s.player.grounded = true →
      jump s = { s with player := { s.player with vy := jumpImpulse, grounded := false } }) ∧
    ((s.running = false ∨ s.player.grounded = false) → jump s = s) := by
  constructor
  · rintro ⟨h1, h2⟩
    simp [jump, h1, h2]
  · rintro (h | h)
    · simp [jump, h]
    · by_cases hr : s.running <;> simp [jump, h, hr]

/-- Witness for C7: a grounded running state jumps; a non-running state
is left unchanged. -/
theorem jump_spec_witness :
    jump { resetGameState with
           player := { resetGameState.player with grounded := true } } =
      { resetGameState with
        player := { resetGameState.player with vy := jumpImpulse, grounded := false } } ∧
    jump { resetGameState with running := false } =
      { resetGameState with running := false } :=
  ⟨(jump_spec _).1 ⟨rfl, rfl⟩, (jump_spec _).2 (Or.inl rfl)⟩

/-- C8: the restart action, from any state whatsoever, reinstalls the
default session state: start player position and zero velocity, empty
obstacle sequence, starting speed, score 0, running; it also zeroes the
React score mirror, sets the React running mirror and resets the frame
timer. -/
theorem restart_resets (w : World) :
    (restart w).session = resetGameState ∧
    (restart w).session.player.x = playerStartX ∧
    (restart w).session.player.y = 0 ∧
    (restart w).session.player.vy = 0 ∧
    (restart w).session.player.grounded = false ∧
    (restart w).session.obstacles = [] ∧
    (restart w).session.speed = obstacleSpeedStart ∧
    (restart w).session.score = 0 ∧
    (restart w).session.running = true ∧
    (restart w).uiScore = 0 ∧
    (restart w).uiRunning = true ∧
    (restart w).lastTime = 0 :=
  ⟨rfl, rfl, rfl, rfl, rfl, rfl, rfl, rfl, rfl, rfl, rfl, rfl⟩

/-- C3: a spawned obstacle is appended at
`x = viewport_width + gap` with
`gap = minGap + r * (maxGap - minGap) ∈ [360, 700]` for a random draw
`r ∈ [0, 1]`, and the last-spawn marker is set to that x; the spawn
trigger fires exactly when the obstacle sequence is empty or the last
obstacle's x has scrolled strictly past
`viewport_width - spawn_lead_distance`. -/
theorem spawn_position_and_trigger (canvasW rGap rW rH : ℚ) (s : GameState)
    (l : List Obstacle) (h0 : 0 ≤ rGap) (h1 : rGap ≤ 1) :
    (spawnObstacle canvasW rGap rW rH s).obstacles =
      s.obstacles ++
        [{ x := canvasW + (obstacleMinGap + rGap * (obstacleMaxGap - obstacleMinGap)),
           y := 0, width := 28 + rW * 48, height := 36 + rH * 64 }] ∧
    (spawnObstacle canvasW rGap rW rH s).lastSpawnX =
      canvasW + (obstacleMinGap + rGap * (obstacleMaxGap - obstacleMinGap)) ∧
    (360 : ℚ) ≤ obstacleMinGap + rGap * (obstacleMaxGap - obstacleMinGap) ∧
    obstacleMinGap + rGap * (obstacleMaxGap - obstacleMinGap) ≤ (700 : ℚ) ∧
    (spawnTrigger canvasW l = true ↔
      l = [] ∨ ∃ o, l.getLast? = some o ∧ o.x < canvasW - spawnEarlyTime) := by
  have hgap0 : (0 : ℚ) ≤ rGap * (obstacleMaxGap - obstacleMinGap) :=
    mul_nonneg h0 (by norm_num [obstacleMinGap, obstacleMaxGap])
  have hgap1 : rGap * (obstacleMaxGap - obstacleMinGap) ≤
      1 * (obstacleMaxGap - obstacleMinGap) :=
    mul_le_mul_of_nonneg_right h1 (by norm_num [obstacleMinGap, obstacleMaxGap])
  refine ⟨rfl, rfl, ?_, ?_, ?_⟩
  · simp only [obstacleMinGap, obstacleMaxGap] at *
    linarith
  · simp only [obstacleMinGap, obstacleMaxGap] at *
    linarith
  · rcases hl : l.getLast? with _ | o
    · have : l = [] := List.getLast?_eq_none_iff.mp hl
      simp [spawnTrigger, hl, this]
    · have hne : l ≠ [] := by
        intro hnil
        rw [hnil] at hl
        simp at hl
      simp [spawnTrigger, hl, hne]

/-- Witness for C3 at a concrete input: random draw 1/2. -/
theorem spawn_position_and_trigger_witness :
    0 ≤ (1 / 2 : ℚ) ∧ (1 / 2 : ℚ) ≤ 1 ∧
    (spawnObstacle 800 (1 / 2) 0 0 resetGameState).lastSpawnX =
      800 + (obstacleMinGap + (1 / 2) * (obstacleMaxGap - obstacleMinGap)) :=
  ⟨by norm_num, by norm_num,
   (spawn_position_and_trigger 800 (1 / 2) 0 0 resetGameState []
      (by norm_num) (by norm_num)).2.1⟩

lemma updatePhysics_score_speed_mono (dt groundY canvasW vh rGap rW rH : ℚ)
    (writeOk : Bool) (s : GameState) (hs0 : ℤ) (sto : Option String)
    (hdt : 0 ≤ dt) (hsp : 0 ≤ s.speed) :
    s.score ≤ (updatePhysics dt groundY canvasW vh rGap rW rH writeOk s hs0 sto).1.score ∧
    s.speed ≤ (updatePhysics dt groundY canvasW vh rGap rW rH writeOk s hs0 sto).1.speed ∧
    0 ≤ (updatePhysics dt groundY canvasW vh rGap rW rH writeOk s hs0 sto).1.speed := by
  rw [updatePhysics_score, updatePhysics_speed]
  have hacc : (0 : ℚ) ≤ obstacleAcceleration * dt :=
    mul_nonneg (by norm_num [obstacleAcceleration]) hdt
  have harg : (0 : ℚ) ≤ (s.speed + obstacleAcceleration * dt) * dt * (0.05 : ℚ) := by
    have := mul_nonneg (mul_nonneg (by linarith : (0:ℚ) ≤ s.speed + obstacleAcceleration * dt) hdt)
      (by norm_num : (0:ℚ) ≤ (0.05 : ℚ))
    linarith
  refine ⟨?_, by linarith, by linarith⟩
  have : (0 : ℤ) ≤ ⌊(s.speed + obstacleAcceleration * dt) * dt * (0.05 : ℚ)⌋ :=
    Int.floor_nonneg.mpr harg
  linarith

/-- C9: over every sequence of physics update steps with non-negative
elapsed times, starting from a state with non-negative speed, the score
is monotonically non-decreasing (each step adds the non-negative amount
`⌊speed * dt * 0.05⌋`) and the scroll speed is likewise non-decreasing
(each step adds `obstacleAcceleration * dt`). -/
theorem score_and_speed_monotone (groundY canvasW vh : ℚ)
    (inputs : List TickInput) (s : GameState) (hs0 : ℤ) (sto : Option String)
    (hdts : ∀ i ∈ inputs, 0 ≤ i.dt) (hsp : 0 ≤ s.speed) :
    s.score ≤ (runSteps groundY canvasW vh inputs (s, hs0, sto)).1.score ∧
    s.speed ≤ (runSteps groundY canvasW vh inputs (s, hs0, sto)).1.speed := by
  induction inputs generalizing s hs0 sto with
  | nil => exact ⟨le_refl _, le_refl _⟩
  | cons i rest ih =>
    have hdt : 0 ≤ i.dt := hdts i (List.mem_cons_self i rest)
    have hstep := updatePhysics_score_speed_mono i.dt groundY canvasW vh
      i.rGap i.rW i.rH i.writeOk s hs0 sto hdt hsp
    have hrest := ih
      (updatePhysics i.dt groundY canvasW vh i.rGap i.rW i.rH i.writeOk s hs0 sto).1
      (updatePhysics i.dt groundY canvasW vh i.rGap i.rW i.rH i.writeOk s hs0 sto).2.1
      (updatePhysics i.dt groundY canvasW vh i.rGap i.rW i.rH i.writeOk s hs0 sto).2.2
      (fun j hj => hdts j (List.mem_cons_of_mem i hj)) hstep.2.2
    constructor
    · calc s.score ≤ _ := hstep.1
        _ ≤ _ := by
          simpa [runSteps] using hrest.1
    · calc s.speed ≤ _ := hstep.2.1
        _ ≤ _ := by
          simpa [runSteps] using hrest.2

/-- Witness for C9: two concrete frames from the reset state. -/
theorem score_and_speed_monotone_witness :
    (∀ i ∈ [TickInput.mk (1 / 60) 0 0 0 true, TickInput.mk (1 / 30) (1 / 2) 0 0 false],
      0 ≤ i.dt) ∧
    0 ≤ resetGameState.speed ∧
    resetGameState.score ≤
      (runSteps 280 800 420 [TickInput.mk (1 / 60) 0 0 0 true, TickInput.mk (1 / 30) (1 / 2) 0 0 false]
        (resetGameState, 0, none)).1.score := by
  have hdts : ∀ i ∈ [TickInput.mk (1 / 60) 0 0 0 true,
      TickInput.mk (1 / 30) (1 / 2) 0 0 false], 0 ≤ i.dt := by
    intro i hi
    fin_cases hi <;> norm_num
  refine ⟨hdts, by norm_num [resetGameState, obstacleSpeedStart], ?_⟩
  exact (score_and_speed_monotone 280 800 420 _ resetGameState 0 none hdts
    (by norm_num [resetGameState, obstacleSpeedStart])).1

/-- C5 (counterexample): with the stored value `"abc"` — present but not
parseable as an integer — the startup read yields `NaN` (modeled as
`none`), not the integer 0 the claim requires. -/
theorem readHighScore_nan_counterexample :
    readHighScore (fun k => if k = highScoreKey then some ("abc") else none) = none ∧
    readHighScore (fun k => if k = highScoreKey then some ("abc") else none) ≠ some 0 := by
  refine ⟨?_, ?_⟩ <;> decide

/-- C5 (amended): the startup read uses the key `"classic-highscore"`;
it yields 0 when the stored value is absent or the empty string; a
present non-empty value goes through the `Number` coercion, yielding the
stored integer when the value parses and `NaN` (modeled `none`) — not
0 — when it does not. -/
theorem readHighScore_behavior (store : String → Option String) :
    highScoreKey = "classic-highscore" ∧
    (store highScoreKey = none → readHighScore store = some 0) ∧
    (store highScoreKey = some ("") → readHighScore store = some 0) ∧
    (∀ s n, store highScoreKey = some s → s ≠ "" → jsNumber s = some n →
      readHighScore store = some n) ∧
    (∀ s, store highScoreKey = some s → s ≠ "" → jsNumber s = none →
      readHighScore store = none) := by
  refine ⟨rfl, ?_, ?_, ?_, ?_⟩
  · intro h
    simp [readHighScore, h]
  · intro h
    simp [readHighScore, h]
  · intro s n hs hne hparse
    simp [readHighScore, hs, hne, hparse]
  · intro s hs hne hparse
    simp [readHighScore, hs, hne, hparse]

/-- Witness for C5: an absent value reads as 0, and a stored `"42"`
reads as 42. -/
theorem readHighScore_behavior_witness :
    readHighScore (fun _ => none) = some 0 ∧
    readHighScore (fun k => if k = highScoreKey then some ("42") else none) = some 42 :=
  ⟨(readHighScore_behavior (fun _ => none)).2.1 rfl,
   (readHighScore_behavior (fun k => if k = highScoreKey then some ("42") else none)).2.2.2.1
     "42" 42 (by decide) (by decide) (by decide)⟩

end Runner

namespace Classics1

lemma runnerPass_spec (gameSpeed : ℚ) (p : Player1) (l : List Runner.Rect)
    (i : ℕ) (running : Bool) (score : ℕ) (removed : List Runner.Rect) :
    (runnerPass gameSpeed p l i running score removed).2.2.1 + removed.length =
      score + (runnerPass gameSpeed p l i running score removed).2.2.2.length ∧
    (∀ o ∈ (runnerPass gameSpeed p l i running score removed).2.2.2,
      o ∈ removed ∨ o.x + o.width < 0) ∧
    (runnerPass gameSpeed p l i running score removed).1.length +
      (runnerPass gameSpeed p l i running score removed).2.2.1 =
      l.length + score := by
  refine runnerPass.induct gameSpeed p
    (fun l i running score removed =>
      (runnerPass gameSpeed p l i running score removed).2.2.1 + removed.length =
        score + (runnerPass gameSpeed p l i running score removed).2.2.2.length ∧
      (∀ o ∈ (runnerPass gameSpeed p l i running score removed).2.2.2,
        o ∈ removed ∨ o.x + o.width < 0) ∧
      (runnerPass gameSpeed p l i running score removed).1.length +
        (runnerPass gameSpeed p l i running score removed).2.2.1 =
        l.length + score)
    ?_ ?_ ?_ l i running score removed
  · intro l i running score removed h hoff ih
    rw [runnerPass, dif_pos h, if_pos hoff]
    refine ⟨?_, ?_, ?_⟩
    · have h1 := ih.1
      simp only [List.length_append, List.length_cons, List.length_nil] at h1 ⊢
      omega
    · intro o ho
      rcases ih.2.1 o ho with hmem | hlt
      · rcases List.mem_append.mp hmem with hmem | hmem
        · exact Or.inl hmem
        · rcases List.mem_singleton.mp hmem with rfl
          exact Or.inr hoff
      · exact Or.inr hlt
    · have h3 := ih.2.2
      have hlen : ((l.set i (moved gameSpeed (l.get ⟨i, h⟩))).eraseIdx i).length =
          l.length - 1 := by
        rw [List.length_eraseIdx]
        simp [h]
      rw [hlen] at h3
      omega
  · intro l i running score removed h hoff ih
    rw [runnerPass, dif_pos h, if_neg hoff]
    refine ⟨ih.1, ih.2.1, ?_⟩
    have h3 := ih.2.2
    rw [List.length_set] at h3
    exact h3
  · intro l i running score removed h
    rw [runnerPass, dif_neg h]
    dsimp only
    exact ⟨rfl, fun o ho => Or.inl ho, by omega⟩

/-- C10: in the second implementation the score counts exactly the
obstacles that have fully scrolled off the left screen edge: the pass's
score equals the number of obstacles it removed, every removed obstacle
has its right edge strictly past `x = 0` (after this frame's move),
survivors plus removals account for every obstacle, a running frame
changes the score by exactly the number of obstacles removed (there is
no other increment site), and a stopped frame leaves the state — score
included — untouched. -/
theorem classics_score_counts_removals (gameSpeed : ℚ) (p : Player1)
    (l : List Runner.Rect) (width height rW : ℚ) (st : ClassicsState) :
    (runnerPass gameSpeed p l 0 true 0 []).2.2.1 =
      (runnerPass gameSpeed p l 0 true 0 []).2.2.2.length ∧
    (∀ o ∈ (runnerPass gameSpeed p l 0 true 0 []).2.2.2, o.x + o.width < 0) ∧
    (runnerPass gameSpeed p l 0 true 0 []).1.length +
      (runnerPass gameSpeed p l 0 true 0 []).2.2.1 = l.length ∧
    (st.running = true →
      (loopStep width height rW st).score +
        (loopStep width height rW st).obstacles.length =
        st.score + (spawned width height rW st).length) ∧
    (st.running = false → loopStep width height rW st = st) := by
  have hs := runnerPass_spec gameSpeed p l 0 true 0 []
  refine ⟨by simpa using hs.1, ?_, by simpa using hs.2.2, ?_, ?_⟩
  · intro o ho
    rcases hs.2.1 o ho with hmem | hlt
    · simp at hmem
    · exact hlt
  · intro hrun
    have h3 := (runnerPass_spec st.gameSpeed (stepPlayer height st.player)
      (spawned width height rW st) 0 true 0 []).2.2
    simp only [loopStep, hrun, Bool.not_true, Bool.false_eq_true, if_false]
    omega
  · intro hstop
    simp [loopStep, hstop]

/-- Witness for C10: a single running frame with no obstacles and no
spawn leaves the score unchanged, as the removal count is zero. -/
theorem classics_score_counts_removals_witness :
    ({ player := { x := 50, y := 320, width := 50, height := 50, dy := 0, gravity := 1 },
       obstacles := [], gameSpeed := 6, frame := 1, running := true, score := 0,
       isJumping := false } : ClassicsState).running = true ∧
    (loopStep 800 400 0
      { player := { x := 50, y := 320, width := 50, height := 50, dy := 0, gravity := 1 },
        obstacles := [], gameSpeed := 6, frame := 1, running := true, score := 0,
        isJumping := false }).score +
      (loopStep 800 400 0
        { player := { x := 50, y := 320, width := 50, height := 50, dy := 0, gravity := 1 },
          obstacles := [], gameSpeed := 6, frame := 1, running := true, score := 0,
          isJumping := false }).obstacles.length =
      ({ player := { x := 50, y := 320, width := 50, height := 50, dy := 0, gravity := 1 },
         obstacles := [], gameSpeed := 6, frame := 1, running := true, score := 0,
         isJumping := false } : ClassicsState).score +
        (spawned 800 400 0
          { player := { x := 50, y := 320, width := 50, height := 50, dy := 0, gravity := 1 },
            obstacles := [], gameSpeed := 6, frame := 1, running := true, score := 0,
            isJumping := false }).length :=
  ⟨rfl,
   (classics_score_counts_removals 6
      { x := 50, y := 320, width := 50, height := 50, dy := 0, gravity := 1 } [] 800 400 0
      { player := { x := 50, y := 320, width := 50, height := 50, dy := 0, gravity := 1 },
        obstacles := [], gameSpeed := 6, frame := 1, running := true, score := 0,
        isJumping := false }).2.2.2.1 rfl⟩


end Classics1
